import Mathlib

/-!
Verification development for the pyPotatoNV upload protocol engine
(src/imageflasher.py and src/main.py), embedded shallowly: pure byte
arithmetic is translated directly, serial I/O and the wall clock become
explicit oracles, and each upload operation returns the trace of frames it
handed to the transport together with its outcome.
-/

namespace PyPotatoNV

/-! ## ChecksumEngine (imageflasher.py, calc_crc) -/

/-- One shift-and-reduce step of CRC-16/CCITT with polynomial 0x1021,
as performed bit-serially by Python's binascii.crc_hqx. -/
def crcShift (c : Nat) : Nat :=
  if c &&& 0x8000 ≠ 0 then ((c <<< 1) ^^^ 0x1021) &&& 0xFFFF else (c <<< 1) &&& 0xFFFF

/-- binascii.crc_hqx(bytes([b]), 0): the CRC-16/CCITT (poly 0x1021, init 0)
of the single byte b — the byte enters the top of the register, then eight
shift-and-reduce steps run. -/
def crc_hqx_byte (b : Nat) : Nat := crcShift^[8] (b <<< 8)

/-- The loop body shared by both loops of calc_crc (imageflasher.py lines 22
and 24): crc = ((crc << 8) | char) ^ crc_hqx(bytes([(crc >> 8) & 0xFF]), 0). -/
def crcFoldStep (crc char : Nat) : Nat :=
  ((crc <<< 8) ||| char) ^^^ crc_hqx_byte ((crc >>> 8) &&& 0xFF)

/-- calc_crc from imageflasher.py: fold crcFoldStep over the data bytes from
the seed, run the same step twice more with feed byte 0 (the range(2) flush
loop, unrolled), and mask to 16 bits once at the very end. -/
def calc_crc (data : List Nat) (crc : Nat := 0) : Nat :=
  (crcFoldStep (crcFoldStep (data.foldl crcFoldStep crc) 0) 0) &&& 0xFFFF

/-- Modelled from the spec (§4.1): the reference checksum update step, which
truncates the accumulator to 16 bits on every step. -/
def specCrcStep (acc b : Nat) : Nat :=
  (((acc <<< 8) ||| b) ^^^ crc_hqx_byte ((acc >>> 8) &&& 0xFF)) &&& 0xFFFF

/-- Modelled from the spec (§4.1): 16-bit accumulator starting at 0, one
truncated update per input byte, then two flush updates with feed byte 0;
the final accumulator is the checksum, not complemented. -/
def spec_checksum (data : List Nat) : Nat :=
  specCrcStep (specCrcStep (data.foldl specCrcStep 0) 0) 0

theorem and_xFFFF_eq_mod (x : Nat) : x &&& 0xFFFF = x % 65536 := by
  have h : (0xFFFF : Nat) = 2 ^ 16 - 1 := by norm_num
  rw [h, Nat.and_pow_two_sub_one_eq_mod]

theorem and_xFF_eq_mod (x : Nat) : x &&& 0xFF = x % 256 := by
  have h : (0xFF : Nat) = 2 ^ 8 - 1 := by norm_num
  rw [h, Nat.and_pow_two_sub_one_eq_mod]

theorem specCrcStep_eq (acc b : Nat) : specCrcStep acc b = crcFoldStep acc b &&& 0xFFFF := rfl

/-- Bits 8..15 of the accumulator, the byte fed to crc_hqx, depend only on
the accumulator's value modulo 2^16. -/
theorem hiByte_congr {a b : Nat} (h : a % 65536 = b % 65536) :
    (a >>> 8) &&& 0xFF = (b >>> 8) &&& 0xFF := by
  rw [and_xFF_eq_mod, and_xFF_eq_mod, Nat.shiftRight_eq_div_pow, Nat.shiftRight_eq_div_pow]
  omega

/-- The low 16 bits of the unmasked update depend only on the low 16 bits of
the accumulator: bits shifted above position 15 never flow back down. -/
theorem step_mod_congr {a b : Nat} (c k : Nat) (h : a % 65536 = b % 65536) :
    (((a <<< 8) ||| c) ^^^ k) % 65536 = (((b <<< 8) ||| c) ^^^ k) % 65536 := by
  have h65536 : (65536 : Nat) = 2 ^ 16 := by norm_num
  apply Nat.eq_of_testBit_eq
  intro i
  rw [h65536]
  simp only [Nat.testBit_mod_two_pow, Nat.testBit_xor, Nat.testBit_lor, Nat.testBit_shiftLeft]
  by_cases hi : i < 16
  · simp only [hi, decide_True, Bool.true_and]
    by_cases h8 : 8 ≤ i
    · have hb : a.testBit (i - 8) = b.testBit (i - 8) := by
        have h1 : (a % 65536).testBit (i - 8) = (b % 65536).testBit (i - 8) := by rw [h]
        rw [h65536] at h1
        simp only [Nat.testBit_mod_two_pow] at h1
        simpa [show i - 8 < 16 by omega] using h1
      simp [ge_iff_le, h8, hb]
    · simp [ge_iff_le, h8]
  · simp [hi]

theorem crcFoldStep_mod_congr {a b : Nat} (c : Nat) (h : a % 65536 = b % 65536) :
    crcFoldStep a c % 65536 = crcFoldStep b c % 65536 := by
  unfold crcFoldStep
  rw [hiByte_congr h]
  exact step_mod_congr c _ h

/-- Folding the unmasked code step and the masked spec step over the same
bytes from accumulators that agree modulo 2^16 yields results that agree
modulo 2^16. -/
theorem crcFold_mod_congr (data : List Nat) :
    ∀ {a b : Nat}, a % 65536 = b % 65536 →
      (data.foldl crcFoldStep a) % 65536 = (data.foldl specCrcStep b) % 65536 := by
  induction data with
  | nil => intro a b h; simpa using h
  | cons x xs ih =>
      intro a b h
      simp only [List.foldl_cons]
      apply ih
      have h1 := crcFoldStep_mod_congr x h
      rw [specCrcStep_eq, and_xFFFF_eq_mod]
      omega

/-- C1: calc_crc with the default seed 0 computes exactly the spec's
reference algorithm; in particular masking to 16 bits only once at the end
(as the code does) agrees with per-step truncation for every byte sequence. -/
theorem calc_crc_eq_spec_checksum (data : List Nat) :
    calc_crc data 0 = spec_checksum data := by
  unfold calc_crc spec_checksum
  rw [and_xFFFF_eq_mod]
  have h0 : (data.foldl crcFoldStep 0) % 65536 = (data.foldl specCrcStep 0) % 65536 :=
    crcFold_mod_congr data rfl
  have h1 : crcFoldStep (data.foldl crcFoldStep 0) 0 % 65536
      = specCrcStep (data.foldl specCrcStep 0) 0 % 65536 := by
    have := crcFoldStep_mod_congr 0 h0
    rw [specCrcStep_eq, and_xFFFF_eq_mod]
    omega
  have h2 : crcFoldStep (crcFoldStep (data.foldl crcFoldStep 0) 0) 0 % 65536
      = specCrcStep (specCrcStep (data.foldl specCrcStep 0) 0) 0 % 65536 := by
    have := crcFoldStep_mod_congr 0 h1
    rw [specCrcStep_eq, and_xFFFF_eq_mod]
    omega
  rw [h2, specCrcStep_eq, and_xFFFF_eq_mod]
  omega

/-! ## Exceptions and the FrameTransport retry loop (imageflasher.py, send_frame) -/

/-- The exception kinds the embedded code can raise: the three classes
declared in imageflasher.py, the KeyError a missing dict key raises in
main.py, and opaque transport-level failures from the serial layer. -/
inductive Exc where
  | flash (msg : String)
  | deviceDetect (msg : String)
  | timeout (msg : String)
  | keyError (key : String)
  | transport (code : Nat)
  deriving DecidableEq

/-- The retry loop of send_frame: `for _ in itertools.repeat(None, loop - 1)`.
`att k` is the outcome of the k-th try-block (buffer reset + write + 1-byte
read): none = success (the function returns), some e = exception e (appended
to fails). Arguments: next attempt index, remaining iterations, accumulated
fails. Returns (attempts made, fails, succeeded?). -/
def send_frame_go (att : Nat → Option Exc) : Nat → Nat → List Exc → Nat × List Exc × Bool
  | i, 0, fails => (i, fails, false)
  | i, rem + 1, fails =>
      match att i with
      | none => (i + 1, fails, true)
      | some e => send_frame_go att (i + 1) rem (fails ++ [e])

/-- send_frame from imageflasher.py, abstracted over the attempt oracle: runs
the retry loop `loop - 1` times; on exhaustion, `for ex in fails: raise ex`
raises the first recorded failure (or returns normally if fails is empty,
which happens only when loop ≤ 1). Returns (attempts made, outcome). -/
def send_frame (att : Nat → Option Exc) (loop : Nat) : Nat × Except Exc Unit :=
  match send_frame_go att 0 (loop - 1) [] with
  | (n, _, true) => (n, .ok ())
  | (n, [], false) => (n, .ok ())
  | (n, e :: _, false) => (n, .error e)

/-- send_start_frame's transport call: send_frame(startframe, 10000). -/
def send_start_frame_attempts (att : Nat → Option Exc) : Nat × Except Exc Unit :=
  send_frame att 10000

/-- send_head_frame's transport call: send_frame(data, 10). -/
def send_head_frame_attempts (att : Nat → Option Exc) : Nat × Except Exc Unit :=
  send_frame att 10

/-- send_data_frame's transport call: send_frame(data, 40). -/
def send_data_frame_attempts (att : Nat → Option Exc) : Nat × Except Exc Unit :=
  send_frame att 40

/-- send_tail_frame's transport call: send_frame(data, 10). -/
def send_tail_frame_attempts (att : Nat → Option Exc) : Nat × Except Exc Unit :=
  send_frame att 10

theorem send_frame_go_le (att : Nat → Option Exc) :
    ∀ rem i fails, (send_frame_go att i rem fails).1 ≤ i + rem := by
  intro rem
  induction rem with
  | zero => intro i fails; simp [send_frame_go]
  | succ r ih =>
      intro i fails
      unfold send_frame_go
      match h : att i with
      | none => simp [h]
      | some e =>
          simp only [h]
          have := ih (i + 1) (fails ++ [e])
          omega

theorem send_frame_go_allfail (att : Nat → Option Exc) :
    ∀ rem i fails, (∀ k, k < rem → (att (i + k)).isSome) →
      ∃ rest, send_frame_go att i rem fails = (i + rem, fails ++ rest, false) := by
  intro rem
  induction rem with
  | zero => intro i fails _; exact ⟨[], by simp [send_frame_go]⟩
  | succ r ih =>
      intro i fails hall
      have h0 : (att i).isSome := by simpa using hall 0 (by omega)
      obtain ⟨e, he⟩ := Option.isSome_iff_exists.mp h0
      obtain ⟨rest, hrest⟩ := ih (i + 1) (fails ++ [e]) (fun k hk => by
        have := hall (k + 1) (by omega)
        simpa [Nat.add_assoc, Nat.add_comm 1 k] using this)
      refine ⟨e :: rest, ?_⟩
      unfold send_frame_go
      simp only [he, hrest]
      have h' : i + 1 + r = i + (r + 1) := by omega
      rw [h']
      simp [List.append_assoc]

/-- C2 counterexample: with the header/tail budget of 10, an oracle whose
first 9 attempts fail and whose 10th attempt would succeed: send_frame gives
up after only 9 attempts (raising the first failure), never making the
budgeted 10th attempt. -/
def c2att : Nat → Option Exc := fun k => if k < 9 then some (.transport k) else none

theorem send_frame_budget_cex :
    c2att 9 = none ∧ send_frame c2att 10 = (9, .error (.transport 0)) := by
  constructor
  · rfl
  · rfl

/-- C2 (amended): send_frame makes up to exactly loop − 1 attempts before
giving up (one fewer than the loop argument), so the effective frame-kind
budgets are 9999 attempts for the start frame, 9 for header frames, 39 for
data frames, and 9 for tail frames; when every attempt fails, exactly that
many attempts are made. -/
theorem send_frame_attempt_budget (att att' : Nat → Option Exc)
    (allFail : ∀ k, (att' k).isSome) :
    (∀ loop, (send_frame att loop).1 ≤ loop - 1)
    ∧ (send_start_frame_attempts att').1 = 9999
    ∧ (send_head_frame_attempts att').1 = 9
    ∧ (send_data_frame_attempts att').1 = 39
    ∧ (send_tail_frame_attempts att').1 = 9 := by
  have hle : ∀ (a : Nat → Option Exc) loop, (send_frame a loop).1 ≤ loop - 1 := by
    intro a loop
    unfold send_frame
    have h := send_frame_go_le a (loop - 1) 0 []
    match hgo : send_frame_go a 0 (loop - 1) [] with
    | (n, _, true) => rw [hgo] at h; simpa using h
    | (n, [], false) => rw [hgo] at h; simpa using h
    | (n, e :: _, false) => rw [hgo] at h; simpa using h
  have hfull : ∀ loop, (send_frame att' loop).1 = loop - 1 := by
    intro loop
    unfold send_frame
    obtain ⟨rest, hrest⟩ :=
      send_frame_go_allfail att' (loop - 1) 0 [] (fun k _ => by simpa using allFail k)
    rw [hrest]
    cases rest <;> simp
  exact ⟨hle att, hfull 10000, hfull 10, hfull 40, hfull 10⟩

theorem send_frame_attempt_budget_witness :
    (send_start_frame_attempts (fun _ => some (.transport 0))).1 = 9999 :=
  (send_frame_attempt_budget (fun _ => none) (fun _ => some (.transport 0))
    (fun _ => rfl)).2.1

/-- C10: when send_frame exhausts its budget with every attempt failing, it
raises exactly one exception, namely the first failure recorded across the
retries; the later recorded failures are discarded. -/
theorem send_frame_raises_first_failure (att : Nat → Option Exc) (loop : Nat) (e : Exc)
    (h2 : 2 ≤ loop) (h0 : att 0 = some e)
    (hall : ∀ k, k < loop - 1 → (att k).isSome) :
    (send_frame att loop).2 = .error e := by
  obtain ⟨r, hr⟩ : ∃ r, loop - 1 = r + 1 := ⟨loop - 2, by omega⟩
  unfold send_frame
  rw [hr]
  obtain ⟨rest, hrest⟩ := send_frame_go_allfail att r 1 [e] (fun k hk => by
    have := hall (1 + k) (by omega)
    simpa using this)
  simp only [send_frame_go, h0, List.nil_append]
  rw [hrest]
  rfl

theorem send_frame_raises_first_failure_witness :
    (send_frame (fun k => some (.transport k)) 3).2 = .error (.transport 0) :=
  send_frame_raises_first_failure (fun k => some (.transport k)) 3 (.transport 0)
    (by norm_num) rfl (fun k _ => rfl)

/-! ## FrameCodec: the protocol constants and the four frame kinds -/

def MAX_DATA_LEN : Nat := 0x400

def IDT_VID : Nat := 0x12D1

def IDT_PID : Nat := 0x3609

def UPLOAD_TIMEOUT : Nat := 50

def startframe : List Nat :=
  [0xFE, 0x00, 0xFF, 0x01, 0x00, 0x00, 0x00, 0x04, 0x00, 0x00, 0x02, 0x01]

def headframe : List Nat := startframe.take 4

def dataframe : List Nat := [0xDA]

def tailframe : List Nat := [0xED]

/-- Python int.to_bytes(len, byteorder="big"): big-endian byte list. -/
def to_bytes_be (len n : Nat) : List Nat :=
  (List.range len).map (fun i => n / 2 ^ (8 * (len - 1 - i)) % 256)

/-- The trailer appended by send_frame: data += calc_crc(data).to_bytes(2, "big"). -/
def withCrc (data : List Nat) : List Nat := data ++ to_bytes_be 2 (calc_crc data)

/-- Python (~n) & 0xFF for a nonnegative n: the low byte of the two's
complement bitwise NOT. -/
def pyComplByte (n : Nat) : Nat := ((-(n : Int) - 1) % 256).toNat

/-- Body of the header frame (send_head_frame): headframe + 4-byte big-endian
length + 4-byte big-endian address. -/
def head_frame_bytes (length address : Nat) : List Nat :=
  headframe ++ to_bytes_be 4 length ++ to_bytes_be 4 address

/-- Body of a data frame (send_data_frame): 0xDA tag, sequence byte n & 0xFF,
complement byte (~n) & 0xFF, then the chunk. -/
def data_frame_bytes (n : Nat) (chunk : List Nat) : List Nat :=
  dataframe ++ [n &&& 0xFF, pyComplByte n] ++ chunk

/-- Body of the tail frame (send_tail_frame): 0xED tag, count byte n & 0xFF,
complement byte (~n) & 0xFF. -/
def tail_frame_bytes (n : Nat) : List Nat :=
  tailframe ++ [n &&& 0xFF, pyComplByte n]

/-- A frame handed to the transport, tagged by the sending method. -/
inductive Sent where
  | head (frame : List Nat)
  | data (frame : List Nat)
  | tail (frame : List Nat)
  deriving DecidableEq

def Sent.isData : Sent → Bool
  | .data _ => true
  | _ => false

def Sent.isTail : Sent → Bool
  | .tail _ => true
  | _ => false

/-! ## TransferOrchestrator: xupload and send_data

Both operations are embedded over an oracle `sendR` giving the outcome of
each send_frame call (indexed 0 for the header, 1..nframes for the data
frames, nframes+1 for the tail; none = success, some e = the exception the
exhausted retry loop raises), and, for send_data, a clock `clock k` giving
the value of the k-th time.time() call (call 0 is start_time). Each returns
the trace of frames handed to send_frame plus the outcome. -/

/-- The frame-count formula shared by send_data and xupload:
nframes = length // MAX_DATA_LEN + (1 if length % MAX_DATA_LEN > 0 else 0). -/
def nframesOf (length : Nat) : Nat :=
  length / MAX_DATA_LEN + (if length % MAX_DATA_LEN > 0 then 1 else 0)

/-- The data-frame loop of xupload: seq counts 1..nframes, offset advances
by MAX_DATA_LEN, chunk = data[offset : offset + MAX_DATA_LEN]. -/
def xupload_loop (sendR : Nat → Option Exc) (data : List Nat) :
    Nat → Nat → Nat → List Sent × Except Exc Unit
  | _, _, 0 => ([], .ok ())
  | seq, offset, rem + 1 =>
      let chunk := (data.drop offset).take MAX_DATA_LEN
      let fr := Sent.data (withCrc (data_frame_bytes seq chunk))
      match sendR seq with
      | some e => ([fr], .error e)
      | none =>
          let p := xupload_loop sendR data (seq + 1) (offset + MAX_DATA_LEN) rem
          (fr :: p.1, p.2)

/-- xupload from imageflasher.py: serial-connected check, empty-payload
check, nframes = length // 1024 + (1 if length % 1024 > 0 else 0), header
frame, data frames, tail frame carrying nframes. -/
def xupload (sendR : Nat → Option Exc) (connected : Bool) (address : Nat)
    (data : List Nat) : List Sent × Except Exc Unit :=
  if !connected then ([], .error (.flash "Serial port not connected"))
  else
    let length := data.length
    if length = 0 then ([], .error (.flash "No data to upload"))
    else
      let nframes := nframesOf length
      let hf := Sent.head (withCrc (head_frame_bytes length address))
      match sendR 0 with
      | some e => ([hf], .error e)
      | none =>
          let p := xupload_loop sendR data 1 0 nframes
          match p.2 with
          | .error e => (hf :: p.1, .error e)
          | .ok () =>
              let tf := Sent.tail (withCrc (tail_frame_bytes nframes))
              match sendR (nframes + 1) with
              | some e => (hf :: p.1 ++ [tf], .error e)
              | none => (hf :: p.1 ++ [tf], .ok ())

/-- The data-frame loop of send_data: n counts 0..nframes-1; each iteration
first reads the clock and raises TimeoutException when more than
UPLOAD_TIMEOUT seconds have passed since start_time t0, then sends data
frame n+1 with chunk data[n*1024 : (n+1)*1024]. -/
def send_data_loop (sendR : Nat → Option Exc) (clock : Nat → ℚ) (data : List Nat)
    (t0 : ℚ) : Nat → Nat → List Sent × Except Exc Unit
  | _, 0 => ([], .ok ())
  | n, rem + 1 =>
      if clock (n + 1) - t0 > (UPLOAD_TIMEOUT : ℚ) then
        ([], .error (.timeout "Upload timeout exceeded!"))
      else
        let chunk := (data.drop (n * MAX_DATA_LEN)).take MAX_DATA_LEN
        let fr := Sent.data (withCrc (data_frame_bytes (n + 1) chunk))
        match sendR (n + 1) with
        | some e => ([fr], .error e)
        | none =>
            let p := send_data_loop sendR clock data t0 (n + 1) rem
            (fr :: p.1, p.2)

/-- send_data from imageflasher.py: length check, header frame, start_time =
time.time(), timed data-frame loop, tail frame carrying the last n + 1
(= nframes, as the loop is entered at least once when length > 0). -/
def send_data (sendR : Nat → Option Exc) (clock : Nat → ℚ) (data : List Nat)
    (address : Nat) : List Sent × Except Exc Unit :=
  let length := data.length
  if length = 0 then ([], .error (.flash "Invalid data length"))
  else
    let nframes := nframesOf length
    let hf := Sent.head (withCrc (head_frame_bytes length address))
    match sendR 0 with
    | some e => ([hf], .error e)
    | none =>
        let p := send_data_loop sendR clock data (clock 0) 0 nframes
        match p.2 with
        | .error e => (hf :: p.1, .error e)
        | .ok () =>
            let tf := Sent.tail (withCrc (tail_frame_bytes nframes))
            match sendR (nframes + 1) with
            | some e => (hf :: p.1 ++ [tf], .error e)
            | none => (hf :: p.1 ++ [tf], .ok ())

/-! ## DeviceLocator: connect_serial's auto-selection -/

/-- One entry of serial.tools.list_ports.comports(): vid/pid may be absent. -/
structure PortInfo where
  vid : Option Nat
  pid : Option Nat
  device : String
  deriving DecidableEq

inductive LogEv where
  | warning (msg : String)
  deriving DecidableEq

/-- The device-selection prefix of connect_serial(device=None): filter the
enumerated ports on vid == 0x12D1 and pid == 0x3609; no match and multiple
matches raise DeviceDetectException, a unique match is auto-selected with a
warning log. The guard chain (if not matching / if len > 1 / else take
matching_ports[0]) is rendered as a match on the filtered list. -/
def connectSelect (ports : List PortInfo) : List LogEv × Except Exc String :=
  match ports.filter (fun p => p.vid == some IDT_VID && p.pid == some IDT_PID) with
  | [] => ([], .error (.deviceDetect "No IDT mode device found"))
  | [p] => ([LogEv.warning ("Autoselecting " ++ p.device)], .ok p.device)
  | _ :: _ :: _ => ([], .error (.deviceDetect "Multiple IDT devices found. Specify manually."))

/-! ## StageSequencer: the upload stage of main() in main.py -/

inductive MEv where
  | connect
  | sent (s : Sent)
  deriving DecidableEq

/-- Python dict lookup roles[r] over the parsed manifest, as an assoc list. -/
def lookupRole (roles : List (String × Nat)) (r : String) : Option Nat :=
  (roles.find? (fun p => p.1 == r)).map (fun p => p.2)

/-- Stage 0 of main(): open the flasher session and connect_serial(), then
xupload the mandatory xloader, the optional uce (if the role is present),
and the mandatory fastboot image, each at its manifest address. connectR is
the outcome of connect_serial; sendR i is the transport oracle of upload i.
A missing dict key raises KeyError at the roles[...] lookup, which in the
source happens after connect_serial() has already opened the handle. -/
def mainStage (connectR : Option Exc) (roles : List (String × Nat))
    (ximg uimg fimg : List Nat) (sendR : Nat → Nat → Option Exc) :
    List MEv × Except Exc Unit :=
  match connectR with
  | some e => ([], .error e)
  | none =>
    match lookupRole roles "xloader" with
    | none => ([MEv.connect], .error (.keyError "xloader"))
    | some xaddr =>
      match xupload (sendR 0) true xaddr ximg with
      | (t1, .error e) => (MEv.connect :: t1.map MEv.sent, .error e)
      | (t1, .ok ()) =>
        match lookupRole roles "uce" with
        | some uaddr =>
          match xupload (sendR 1) true uaddr uimg with
          | (t2, .error e) => (MEv.connect :: (t1 ++ t2).map MEv.sent, .error e)
          | (t2, .ok ()) =>
            match lookupRole roles "fastboot" with
            | none => (MEv.connect :: (t1 ++ t2).map MEv.sent, .error (.keyError "fastboot"))
            | some faddr =>
              match xupload (sendR 2) true faddr fimg with
              | (t3, r) => (MEv.connect :: (t1 ++ t2 ++ t3).map MEv.sent, r)
        | none =>
          match lookupRole roles "fastboot" with
          | none => (MEv.connect :: t1.map MEv.sent, .error (.keyError "fastboot"))
          | some faddr =>
            match xupload (sendR 2) true faddr fimg with
            | (t3, r) => (MEv.connect :: (t1 ++ t3).map MEv.sent, r)

/-! ## Structure lemmas about the two data-frame loops -/

theorem xupload_loop_all_data (sendR : Nat → Option Exc) (data : List Nat) :
    ∀ rem seq offset, ∀ s ∈ (xupload_loop sendR data seq offset rem).1, s.isData = true := by
  intro rem
  induction rem with
  | zero => intro seq offset s hs; simp [xupload_loop] at hs
  | succ r ih =>
      intro seq offset s hs
      unfold xupload_loop at hs
      cases hR : sendR seq with
      | some e =>
          rw [hR] at hs
          simp at hs
          subst hs
          rfl
      | none =>
          rw [hR] at hs
          simp at hs
          rcases hs with h | h
          · subst h; rfl
          · exact ih (seq + 1) (offset + MAX_DATA_LEN) s h

theorem xupload_loop_ok_length (sendR : Nat → Option Exc) (data : List Nat) :
    ∀ rem seq offset, (xupload_loop sendR data seq offset rem).2 = .ok () →
      (xupload_loop sendR data seq offset rem).1.length = rem := by
  intro rem
  induction rem with
  | zero => intro seq offset _; simp [xupload_loop]
  | succ r ih =>
      intro seq offset hok
      unfold xupload_loop at hok ⊢
      cases hR : sendR seq with
      | some e => rw [hR] at hok; simp at hok
      | none =>
          rw [hR] at hok
          simp at hok ⊢
          exact ih (seq + 1) (offset + MAX_DATA_LEN) hok

theorem send_data_loop_all_data (sendR : Nat → Option Exc) (clock : Nat → ℚ)
    (data : List Nat) (t0 : ℚ) :
    ∀ rem n, ∀ s ∈ (send_data_loop sendR clock data t0 n rem).1, s.isData = true := by
  intro rem
  induction rem with
  | zero => intro n s hs; simp [send_data_loop] at hs
  | succ r ih =>
      intro n s hs
      unfold send_data_loop at hs
      by_cases hC : clock (n + 1) - t0 > (UPLOAD_TIMEOUT : ℚ)
      · rw [if_pos hC] at hs; simp at hs
      · rw [if_neg hC] at hs
        cases hR : sendR (n + 1) with
        | some e =>
            rw [hR] at hs
            simp at hs
            subst hs
            rfl
        | none =>
            rw [hR] at hs
            simp at hs
            rcases hs with h | h
            · subst h; rfl
            · exact ih (n + 1) s h

theorem send_data_loop_ok_length (sendR : Nat → Option Exc) (clock : Nat → ℚ)
    (data : List Nat) (t0 : ℚ) :
    ∀ rem n, (send_data_loop sendR clock data t0 n rem).2 = .ok () →
      (send_data_loop sendR clock data t0 n rem).1.length = rem := by
  intro rem
  induction rem with
  | zero => intro n _; simp [send_data_loop]
  | succ r ih =>
      intro n hok
      unfold send_data_loop at hok ⊢
      by_cases hC : clock (n + 1) - t0 > (UPLOAD_TIMEOUT : ℚ)
      · rw [if_pos hC] at hok; simp at hok
      · rw [if_neg hC] at hok ⊢
        cases hR : sendR (n + 1) with
        | some e => rw [hR] at hok; simp at hok
        | none =>
            rw [hR] at hok
            simp at hok ⊢
            exact ih (n + 1) hok

theorem send_data_loop_timeout (sendR : Nat → Option Exc) (clock : Nat → ℚ)
    (data : List Nat) (t0 : ℚ) :
    ∀ rem n, (∀ k, sendR k = none) →
      (∃ j, j < rem ∧ clock (n + j + 1) - t0 > (UPLOAD_TIMEOUT : ℚ)) →
      (send_data_loop sendR clock data t0 n rem).2
        = .error (.timeout "Upload timeout exceeded!") := by
  intro rem
  induction rem with
  | zero => intro n _ h; obtain ⟨j, hj, _⟩ := h; omega
  | succ r ih =>
      intro n hok h
      unfold send_data_loop
      by_cases hC : clock (n + 1) - t0 > (UPLOAD_TIMEOUT : ℚ)
      · rw [if_pos hC]
      · rw [if_neg hC]
        rw [hok (n + 1)]
        have hnext : ∃ j, j < r ∧ clock ((n + 1) + j + 1) - t0 > (UPLOAD_TIMEOUT : ℚ) := by
          obtain ⟨j, hj, hgt⟩ := h
          cases j with
          | zero => exact absurd (by simpa using hgt) hC
          | succ j' =>
              refine ⟨j', by omega, ?_⟩
              have harith : (n + 1) + j' + 1 = n + (j' + 1) + 1 := by omega
              rw [harith]
              exact hgt
        simpa using ih (n + 1) hok hnext

theorem Sent.isTail_eq_false {s : Sent} (h : s.isData = true) : s.isTail = false := by
  cases s <;> simp_all [Sent.isData, Sent.isTail]

theorem Sent.isData_head (f : List Nat) : (Sent.head f).isData = false := rfl

/-- Shape of a completed upload trace: one header, all-data middle, one tail. -/
theorem trace_shape (h t : List Nat) (tr : List Sent) (hall : ∀ s ∈ tr, s.isData = true) :
    (Sent.head h :: tr ++ [Sent.tail t]).filter Sent.isData = tr
    ∧ (Sent.head h :: tr ++ [Sent.tail t]).getLast? = some (Sent.tail t)
    ∧ (Sent.head h :: tr ++ [Sent.tail t]).dropLast = Sent.head h :: tr
    ∧ (Sent.head h :: tr).filter Sent.isTail = [] := by
  refine ⟨?_, ?_, ?_, ?_⟩
  · simp [List.filter_append, Sent.isData, Sent.isTail, List.filter_eq_self.mpr hall]
  · rw [List.getLast?_concat]
  · rw [List.dropLast_concat]
  · rw [List.filter_eq_nil_iff]
    intro s hs
    rcases List.mem_cons.mp hs with h1 | h1
    · subst h1; simp [Sent.isTail]
    · simp [Sent.isTail_eq_false (hall s h1)]

theorem xupload_ok_structure (sendR : Nat → Option Exc) (address : Nat) (data : List Nat)
    (hok : (xupload sendR true address data).2 = .ok ()) :
    xupload sendR true address data
      = (Sent.head (withCrc (head_frame_bytes data.length address))
          :: (xupload_loop sendR data 1 0 (nframesOf data.length)).1
          ++ [Sent.tail (withCrc (tail_frame_bytes (nframesOf data.length)))], .ok ())
    ∧ (xupload_loop sendR data 1 0 (nframesOf data.length)).2 = .ok () := by
  unfold xupload at hok ⊢
  simp only [Bool.not_true] at hok ⊢
  rw [if_neg Bool.false_ne_true] at hok ⊢
  by_cases hL : data.length = 0
  · rw [if_pos hL] at hok; simp at hok
  · rw [if_neg hL] at hok ⊢
    cases hR0 : sendR 0 with
    | some e => rw [hR0] at hok; simp at hok
    | none =>
        rw [hR0] at hok
        cases hres : (xupload_loop sendR data 1 0 (nframesOf data.length)).2 with
        | error e => rw [hres] at hok; simp at hok
        | ok u =>
            rw [hres] at hok
            cases hRt : sendR (nframesOf data.length + 1) with
            | some e => rw [hRt] at hok; simp at hok
            | none => exact ⟨by simp, rfl⟩

theorem send_data_ok_structure (sendR : Nat → Option Exc) (clock : Nat → ℚ)
    (data : List Nat) (address : Nat)
    (hok : (send_data sendR clock data address).2 = .ok ()) :
    send_data sendR clock data address
      = (Sent.head (withCrc (head_frame_bytes data.length address))
          :: (send_data_loop sendR clock data (clock 0) 0 (nframesOf data.length)).1
          ++ [Sent.tail (withCrc (tail_frame_bytes (nframesOf data.length)))], .ok ())
    ∧ (send_data_loop sendR clock data (clock 0) 0 (nframesOf data.length)).2 = .ok () := by
  unfold send_data at hok ⊢
  simp only [] at hok ⊢
  by_cases hL : data.length = 0
  · rw [if_pos hL] at hok; simp at hok
  · rw [if_neg hL] at hok ⊢
    cases hR0 : sendR 0 with
    | some e => rw [hR0] at hok; simp at hok
    | none =>
        rw [hR0] at hok
        cases hres : (send_data_loop sendR clock data (clock 0) 0 (nframesOf data.length)).2 with
        | error e => rw [hres] at hok; simp at hok
        | ok u =>
            rw [hres] at hok
            cases hRt : sendR (nframesOf data.length + 1) with
            | some e => rw [hRt] at hok; simp at hok
            | none => exact ⟨by simp, rfl⟩

/-- The code's nframes formula is the ceiling of length / MAX_DATA_LEN. -/
theorem nframesOf_eq_ceil (L : Nat) :
    nframesOf L = (L + MAX_DATA_LEN - 1) / MAX_DATA_LEN := by
  unfold nframesOf MAX_DATA_LEN
  split <;> omega

theorem send_data_loop_ok (sendR : Nat → Option Exc) (clock : Nat → ℚ)
    (data : List Nat) (t0 : ℚ)
    (hsend : ∀ k, sendR k = none)
    (hclock : ∀ k, ¬ clock k - t0 > (UPLOAD_TIMEOUT : ℚ)) :
    ∀ rem n, (send_data_loop sendR clock data t0 n rem).2 = .ok () := by
  intro rem
  induction rem with
  | zero => intro n; simp [send_data_loop]
  | succ r ih =>
      intro n
      unfold send_data_loop
      rw [if_neg (hclock (n + 1)), hsend (n + 1)]
      simpa using ih (n + 1)

theorem send_data_all_ok (sendR : Nat → Option Exc) (clock : Nat → ℚ)
    (data : List Nat) (address : Nat)
    (hL : ¬ data.length = 0)
    (hsend : ∀ k, sendR k = none)
    (hclock : ∀ k, ¬ clock k - clock 0 > (UPLOAD_TIMEOUT : ℚ)) :
    (send_data sendR clock data address).2 = .ok () := by
  unfold send_data
  simp only []
  rw [if_neg hL, hsend 0,
    send_data_loop_ok sendR clock data (clock 0) hsend hclock (nframesOf data.length) 0,
    hsend (nframesOf data.length + 1)]

theorem xupload_loop_ok (sendR : Nat → Option Exc) (data : List Nat)
    (hsend : ∀ k, sendR k = none) :
    ∀ rem seq offset, (xupload_loop sendR data seq offset rem).2 = .ok () := by
  intro rem
  induction rem with
  | zero => intro seq offset; simp [xupload_loop]
  | succ r ih =>
      intro seq offset
      unfold xupload_loop
      rw [hsend seq]
      simpa using ih (seq + 1) (offset + MAX_DATA_LEN)

theorem xupload_all_ok (sendR : Nat → Option Exc) (address : Nat) (data : List Nat)
    (hL : ¬ data.length = 0) (hsend : ∀ k, sendR k = none) :
    (xupload sendR true address data).2 = .ok () := by
  unfold xupload
  simp only [Bool.not_true]
  rw [if_neg Bool.false_ne_true, if_neg hL, hsend 0,
    xupload_loop_ok sendR data hsend (nframesOf data.length) 1 0,
    hsend (nframesOf data.length + 1)]

/-- Helper: the send_data half of the timeout law — if the 50-second
deadline is exceeded at a data-frame iteration (the transport itself not
failing), send_data raises TimeoutException and no tail frame is sent. -/
theorem send_data_deadline_timeout (sendR : Nat → Option Exc) (clock : Nat → ℚ)
    (data : List Nat) (address : Nat)
    (hsend : ∀ k, sendR k = none)
    (hto : ∃ n, n < nframesOf data.length ∧ clock (n + 1) - clock 0 > (UPLOAD_TIMEOUT : ℚ)) :
    (send_data sendR clock data address).2 = .error (.timeout "Upload timeout exceeded!")
    ∧ (send_data sendR clock data address).1.filter Sent.isTail = [] := by
  have hL : ¬ data.length = 0 := by
    intro h0
    obtain ⟨n, hn, _⟩ := hto
    rw [h0] at hn
    simp [nframesOf] at hn
  have hloop := send_data_loop_timeout sendR clock data (clock 0) (nframesOf data.length) 0
      hsend (by simpa using hto)
  have halldata := send_data_loop_all_data sendR clock data (clock 0) (nframesOf data.length) 0
  have heq : send_data sendR clock data address
      = (Sent.head (withCrc (head_frame_bytes data.length address))
          :: (send_data_loop sendR clock data (clock 0) 0 (nframesOf data.length)).1,
         .error (.timeout "Upload timeout exceeded!")) := by
    unfold send_data
    simp only []
    rw [if_neg hL, hsend 0, hloop]
  refine ⟨by rw [heq], ?_⟩
  rw [heq]
  simp only []
  rw [List.filter_eq_nil_iff]
  intro s hs
  rcases List.mem_cons.mp hs with h1 | h1
  · subst h1; simp [Sent.isTail]
  · simp [Sent.isTail_eq_false (halldata s h1)]

/-- C3 counterexample: xupload contains no deadline check whatsoever — its
embedding takes no clock, because the source never calls time.time() — so
its outcome is the same however much wall-clock time a run consumes, in
particular when the 50-second deadline passes mid-loop: here a concrete
transport-successful xupload returns normally (no TimeoutException) and the
tail frame IS sent, refuting the claim for the xupload path. -/
theorem xupload_no_timeout_cex :
    (xupload (fun _ => none) true 0 [1]).2 = .ok ()
    ∧ (xupload (fun _ => none) true 0 [1]).1.filter Sent.isTail
        = [Sent.tail (withCrc (tail_frame_bytes 1))] := by
  constructor
  · rfl
  · rfl

/-- C3 (amended): the timeout law holds for send_data — deadline exceeded
before the loop reaches framesNeeded means TimeoutException and no tail
frame — but not for xupload, which never consults the clock: whatever the
elapsed wall-clock time, a transport-successful xupload of a nonempty
payload completes normally and sends the tail frame. -/
theorem upload_timeout_law (sendR : Nat → Option Exc) (clock : Nat → ℚ)
    (data : List Nat) (address : Nat)
    (hsend : ∀ k, sendR k = none)
    (hto : ∃ n, n < nframesOf data.length ∧ clock (n + 1) - clock 0 > (UPLOAD_TIMEOUT : ℚ)) :
    (send_data sendR clock data address).2 = .error (.timeout "Upload timeout exceeded!")
    ∧ (send_data sendR clock data address).1.filter Sent.isTail = []
    ∧ ∀ (sendR' : Nat → Option Exc) (address' : Nat) (data' : List Nat),
        (∀ k, sendR' k = none) → data'.length ≠ 0 →
        (xupload sendR' true address' data').2 = .ok ()
        ∧ (xupload sendR' true address' data').1.getLast?
            = some (Sent.tail (withCrc (tail_frame_bytes (nframesOf data'.length)))) := by
  obtain ⟨h1, h2⟩ := send_data_deadline_timeout sendR clock data address hsend hto
  refine ⟨h1, h2, ?_⟩
  intro sendR' address' data' hsend' hL'
  have hok := xupload_all_ok sendR' address' data' hL' hsend'
  refine ⟨hok, ?_⟩
  obtain ⟨heq, -⟩ := xupload_ok_structure sendR' address' data' hok
  have htr : (xupload sendR' true address' data').1
      = Sent.head (withCrc (head_frame_bytes data'.length address'))
        :: (xupload_loop sendR' data' 1 0 (nframesOf data'.length)).1
        ++ [Sent.tail (withCrc (tail_frame_bytes (nframesOf data'.length)))] := by
    rw [heq]
  rw [htr]
  exact (trace_shape _ _ _
    (xupload_loop_all_data sendR' data' (nframesOf data'.length) 1 0)).2.1

theorem upload_timeout_law_witness :
    (send_data (fun _ => none) (fun k => if k = 0 then 0 else 51) [1] 0).2
        = .error (.timeout "Upload timeout exceeded!")
    ∧ (send_data (fun _ => none) (fun k => if k = 0 then 0 else 51) [1] 0).1.filter
        Sent.isTail = []
    ∧ (xupload (fun _ => none) true 0 [2]).2 = .ok ()
    ∧ (xupload (fun _ => none) true 0 [2]).1.getLast?
        = some (Sent.tail (withCrc (tail_frame_bytes (nframesOf (List.length [2]))))) := by
  have h := upload_timeout_law (fun _ => none) (fun k => if k = 0 then 0 else 51) [1] 0
    (fun _ => rfl)
    ⟨0, by norm_num [nframesOf, MAX_DATA_LEN], by norm_num [UPLOAD_TIMEOUT]⟩
  have hx := h.2.2 (fun _ => none) 0 [2] (fun _ => rfl) (by norm_num)
  exact ⟨h.1, h.2.1, hx.1, hx.2⟩

/-- C4: every completed upload of a payload of length L > 0 — through
xupload as well as through send_data — sends exactly ceil(L / 1024) data
frames; for L = 0 both upload operations raise FlashException with an
empty trace, before any frame is sent. -/
theorem upload_chunk_count (sendR sendR' sendR'' : Nat → Option Exc) (clock : Nat → ℚ)
    (address address' address'' : Nat) (data data0 data'' : List Nat)
    (hok : (xupload sendR true address data).2 = .ok ()) (hpos : 0 < data.length)
    (hok'' : (send_data sendR'' clock data'' address'').2 = .ok ())
    (hpos'' : 0 < data''.length)
    (h0 : data0.length = 0) :
    ((xupload sendR true address data).1.filter Sent.isData).length
      = (data.length + MAX_DATA_LEN - 1) / MAX_DATA_LEN
    ∧ ((send_data sendR'' clock data'' address'').1.filter Sent.isData).length
      = (data''.length + MAX_DATA_LEN - 1) / MAX_DATA_LEN
    ∧ xupload sendR' true address' data0 = ([], .error (.flash "No data to upload"))
    ∧ send_data sendR' clock data0 address' = ([], .error (.flash "Invalid data length")) := by
  obtain ⟨heq, hloopok⟩ := xupload_ok_structure sendR address data hok
  have htr : (xupload sendR true address data).1
      = Sent.head (withCrc (head_frame_bytes data.length address))
        :: (xupload_loop sendR data 1 0 (nframesOf data.length)).1
        ++ [Sent.tail (withCrc (tail_frame_bytes (nframesOf data.length)))] := by
    rw [heq]
  have halldata := xupload_loop_all_data sendR data (nframesOf data.length) 1 0
  have hshape := trace_shape (withCrc (head_frame_bytes data.length address))
      (withCrc (tail_frame_bytes (nframesOf data.length)))
      (xupload_loop sendR data 1 0 (nframesOf data.length)).1 halldata
  obtain ⟨heq'', hloopok''⟩ := send_data_ok_structure sendR'' clock data'' address'' hok''
  have htr'' : (send_data sendR'' clock data'' address'').1
      = Sent.head (withCrc (head_frame_bytes data''.length address''))
        :: (send_data_loop sendR'' clock data'' (clock 0) 0 (nframesOf data''.length)).1
        ++ [Sent.tail (withCrc (tail_frame_bytes (nframesOf data''.length)))] := by
    rw [heq'']
  have halldata'' := send_data_loop_all_data sendR'' clock data'' (clock 0)
      (nframesOf data''.length) 0
  have hshape'' := trace_shape (withCrc (head_frame_bytes data''.length address''))
      (withCrc (tail_frame_bytes (nframesOf data''.length)))
      (send_data_loop sendR'' clock data'' (clock 0) 0 (nframesOf data''.length)).1 halldata''
  refine ⟨?_, ?_, ?_, ?_⟩
  · rw [htr, hshape.1,
      xupload_loop_ok_length sendR data (nframesOf data.length) 1 0 hloopok]
    exact nframesOf_eq_ceil data.length
  · rw [htr'', hshape''.1,
      send_data_loop_ok_length sendR'' clock data'' (clock 0) (nframesOf data''.length) 0
        hloopok'']
    exact nframesOf_eq_ceil data''.length
  · unfold xupload
    simp [h0]
  · unfold send_data
    simp [h0]

theorem upload_chunk_count_witness :
    ((xupload (fun _ => none) true 0 [7]).1.filter Sent.isData).length
      = (List.length [7] + MAX_DATA_LEN - 1) / MAX_DATA_LEN
    ∧ ((send_data (fun _ => none) (fun _ => 0) [5] 0).1.filter Sent.isData).length
      = (List.length [5] + MAX_DATA_LEN - 1) / MAX_DATA_LEN
    ∧ xupload (fun _ => none) true 0 [] = ([], .error (.flash "No data to upload"))
    ∧ send_data (fun _ => none) (fun _ => 0) [] 0
        = ([], .error (.flash "Invalid data length")) :=
  upload_chunk_count (fun _ => none) (fun _ => none) (fun _ => none) (fun _ => 0) 0 0 0 [7] [] [5]
    rfl (by norm_num)
    (send_data_all_ok (fun _ => none) (fun _ => 0) [5] 0 (by norm_num) (fun _ => rfl)
      (fun _ => by norm_num [UPLOAD_TIMEOUT]))
    (by norm_num) rfl

/-- C5: every upload that completes without error sends exactly one tail
frame, positioned after all data frames, and the count byte encoded in it
equals the number of data frames actually sent, reduced mod 256 — for both
xupload and send_data. -/
theorem upload_tail_integrity (sendR sendR' : Nat → Option Exc) (clock : Nat → ℚ)
    (address address' : Nat) (data data' : List Nat)
    (hok : (xupload sendR true address data).2 = .ok ())
    (hok' : (send_data sendR' clock data' address').2 = .ok ()) :
    (∃ f, (xupload sendR true address data).1.getLast? = some (Sent.tail f)
      ∧ (xupload sendR true address data).1.dropLast.filter Sent.isTail = []
      ∧ f.get? 1
          = some (((xupload sendR true address data).1.filter Sent.isData).length % 256))
    ∧ (∃ f, (send_data sendR' clock data' address').1.getLast? = some (Sent.tail f)
      ∧ (send_data sendR' clock data' address').1.dropLast.filter Sent.isTail = []
      ∧ f.get? 1
          = some (((send_data sendR' clock data' address').1.filter
              Sent.isData).length % 256)) := by
  constructor
  · obtain ⟨heq, hloopok⟩ := xupload_ok_structure sendR address data hok
    have htr : (xupload sendR true address data).1
        = Sent.head (withCrc (head_frame_bytes data.length address))
          :: (xupload_loop sendR data 1 0 (nframesOf data.length)).1
          ++ [Sent.tail (withCrc (tail_frame_bytes (nframesOf data.length)))] := by
      rw [heq]
    have halldata := xupload_loop_all_data sendR data (nframesOf data.length) 1 0
    have hshape := trace_shape (withCrc (head_frame_bytes data.length address))
        (withCrc (tail_frame_bytes (nframesOf data.length)))
        (xupload_loop sendR data 1 0 (nframesOf data.length)).1 halldata
    refine ⟨withCrc (tail_frame_bytes (nframesOf data.length)), ?_, ?_, ?_⟩
    · rw [htr]; exact hshape.2.1
    · rw [htr, hshape.2.2.1]; exact hshape.2.2.2
    · rw [htr, hshape.1,
        xupload_loop_ok_length sendR data (nframesOf data.length) 1 0 hloopok]
      have hget : (withCrc (tail_frame_bytes (nframesOf data.length))).get? 1
          = some (nframesOf data.length &&& 0xFF) := rfl
      rw [hget, and_xFF_eq_mod]
  · obtain ⟨heq, hloopok⟩ := send_data_ok_structure sendR' clock data' address' hok'
    have htr : (send_data sendR' clock data' address').1
        = Sent.head (withCrc (head_frame_bytes data'.length address'))
          :: (send_data_loop sendR' clock data' (clock 0) 0 (nframesOf data'.length)).1
          ++ [Sent.tail (withCrc (tail_frame_bytes (nframesOf data'.length)))] := by
      rw [heq]
    have halldata := send_data_loop_all_data sendR' clock data' (clock 0)
        (nframesOf data'.length) 0
    have hshape := trace_shape (withCrc (head_frame_bytes data'.length address'))
        (withCrc (tail_frame_bytes (nframesOf data'.length)))
        (send_data_loop sendR' clock data' (clock 0) 0 (nframesOf data'.length)).1 halldata
    refine ⟨withCrc (tail_frame_bytes (nframesOf data'.length)), ?_, ?_, ?_⟩
    · rw [htr]; exact hshape.2.1
    · rw [htr, hshape.2.2.1]; exact hshape.2.2.2
    · rw [htr, hshape.1,
        send_data_loop_ok_length sendR' clock data' (clock 0) (nframesOf data'.length) 0
          hloopok]
      have hget : (withCrc (tail_frame_bytes (nframesOf data'.length))).get? 1
          = some (nframesOf data'.length &&& 0xFF) := rfl
      rw [hget, and_xFF_eq_mod]

theorem upload_tail_integrity_witness :
    (∃ f, (xupload (fun _ => none) true 0 [9]).1.getLast? = some (Sent.tail f)
      ∧ (xupload (fun _ => none) true 0 [9]).1.dropLast.filter Sent.isTail = []
      ∧ f.get? 1
          = some (((xupload (fun _ => none) true 0 [9]).1.filter Sent.isData).length % 256))
    ∧ (∃ f, (send_data (fun _ => none) (fun _ => 0) [5] 0).1.getLast? = some (Sent.tail f)
      ∧ (send_data (fun _ => none) (fun _ => 0) [5] 0).1.dropLast.filter Sent.isTail = []
      ∧ f.get? 1
          = some (((send_data (fun _ => none) (fun _ => 0) [5] 0).1.filter
              Sent.isData).length % 256)) :=
  upload_tail_integrity (fun _ => none) (fun _ => none) (fun _ => 0) 0 0 [9] [5] rfl
    (send_data_all_ok (fun _ => none) (fun _ => 0) [5] 0 (by norm_num) (fun _ => rfl)
      (fun _ => by norm_num [UPLOAD_TIMEOUT]))

theorem pyComplByte_eq (n : Nat) : pyComplByte n = 255 - n % 256 := by
  unfold pyComplByte
  omega

/-- C6: in every data frame built with sequence index n, the sequence byte
is n mod 256 and the complement byte is the bitwise NOT of the sequence
byte masked to 8 bits; the same relation holds for the count/complement
pair of every tail frame. -/
theorem frame_seq_complement (n : Nat) (chunk : List Nat) :
    (withCrc (data_frame_bytes n chunk)).get? 1 = some (n % 256)
    ∧ (withCrc (data_frame_bytes n chunk)).get? 2 = some (pyComplByte (n % 256))
    ∧ (withCrc (tail_frame_bytes n)).get? 1 = some (n % 256)
    ∧ (withCrc (tail_frame_bytes n)).get? 2 = some (pyComplByte (n % 256))
    ∧ pyComplByte (n % 256) = 255 - n % 256 := by
  have h1 : (withCrc (data_frame_bytes n chunk)).get? 1 = some (n &&& 0xFF) := rfl
  have h2 : (withCrc (data_frame_bytes n chunk)).get? 2 = some (pyComplByte n) := rfl
  have h3 : (withCrc (tail_frame_bytes n)).get? 1 = some (n &&& 0xFF) := rfl
  have h4 : (withCrc (tail_frame_bytes n)).get? 2 = some (pyComplByte n) := rfl
  have hc : pyComplByte n = pyComplByte (n % 256) := by
    rw [pyComplByte_eq, pyComplByte_eq]
    omega
  refine ⟨?_, ?_, ?_, ?_, ?_⟩
  · rw [h1, and_xFF_eq_mod]
  · rw [h2, hc]
  · rw [h3, and_xFF_eq_mod]
  · rw [h4, hc]
  · rw [pyComplByte_eq]
    omega

def c7roles : List (String × Nat) := [("fastboot", 0)]

/-- C7 counterexample: a role table containing only fastboot. The stage
sequence opens the device connection — the trace records the connect
event — before the missing-xloader lookup aborts the run, refuting "aborts
before opening any device connection". -/
theorem mainStage_missing_xloader_cex :
    lookupRole c7roles "xloader" = none
    ∧ mainStage none c7roles [] [] [] (fun _ _ => none)
        = ([MEv.connect], .error (.keyError "xloader"))
    ∧ MEv.connect ∈ (mainStage none c7roles [] [] [] (fun _ _ => none)).1 :=
  ⟨rfl, rfl, List.Mem.head _⟩

/-- C7 (amended): when the mandatory xloader role is absent from the role
table (and connect_serial succeeds), the run aborts with the KeyError
raised by the role lookup — after the device connection has been opened,
and before any frame is sent: the trace is exactly the connect event. -/
theorem mainStage_missing_xloader (roles : List (String × Nat))
    (ximg uimg fimg : List Nat) (sendR : Nat → Nat → Option Exc)
    (h : lookupRole roles "xloader" = none) :
    mainStage none roles ximg uimg fimg sendR
      = ([MEv.connect], .error (.keyError "xloader")) := by
  unfold mainStage
  rw [h]

theorem mainStage_missing_xloader_witness :
    mainStage none [("fastboot", 5)] [3] [3] [3] (fun _ _ => none)
      = ([MEv.connect], .error (.keyError "xloader")) :=
  mainStage_missing_xloader [("fastboot", 5)] [3] [3] [3] (fun _ _ => none) rfl

/-- C8: device auto-selection over the enumerated serial ports: zero ports
matching (0x12D1, 0x3609) raise DeviceDetectException, two or more matches
raise DeviceDetectException, and a unique match is auto-selected with a
warning-level log of the selection. -/
theorem connect_serial_selection (ports : List PortInfo) :
    (ports.filter (fun p => p.vid == some IDT_VID && p.pid == some IDT_PID) = [] →
      connectSelect ports = ([], .error (.deviceDetect "No IDT mode device found")))
    ∧ (2 ≤ (ports.filter (fun p => p.vid == some IDT_VID && p.pid == some IDT_PID)).length →
      connectSelect ports
        = ([], .error (.deviceDetect "Multiple IDT devices found. Specify manually.")))
    ∧ (∀ q, ports.filter (fun p => p.vid == some IDT_VID && p.pid == some IDT_PID) = [q] →
      connectSelect ports = ([LogEv.warning ("Autoselecting " ++ q.device)], .ok q.device)) := by
  unfold connectSelect
  rcases hm : ports.filter (fun p => p.vid == some IDT_VID && p.pid == some IDT_PID)
    with _ | ⟨q0, _ | ⟨r0, rest⟩⟩ <;> rw [hm]
  · exact ⟨fun _ => rfl, fun h2 => by norm_num at h2, fun q hq => by simp at hq⟩
  · refine ⟨fun h => by simp at h, fun h2 => by norm_num at h2, fun q hq => ?_⟩
    obtain rfl : q0 = q := by simpa using hq
    rfl
  · exact ⟨fun h => by simp at h, fun _ => rfl, fun q hq => by simp at hq⟩

theorem connect_serial_selection_witness :
    connectSelect [] = ([], .error (.deviceDetect "No IDT mode device found"))
    ∧ connectSelect [⟨some IDT_VID, some IDT_PID, "COM3"⟩]
        = ([LogEv.warning ("Autoselecting " ++ "COM3")], .ok "COM3")
    ∧ connectSelect [⟨some IDT_VID, some IDT_PID, "a"⟩, ⟨some IDT_VID, some IDT_PID, "b"⟩]
        = ([], .error (.deviceDetect "Multiple IDT devices found. Specify manually.")) :=
  ⟨(connect_serial_selection []).1 rfl,
   (connect_serial_selection [⟨some IDT_VID, some IDT_PID, "COM3"⟩]).2.2
     ⟨some IDT_VID, some IDT_PID, "COM3"⟩ (by decide),
   (connect_serial_selection
       [⟨some IDT_VID, some IDT_PID, "a"⟩, ⟨some IDT_VID, some IDT_PID, "b"⟩]).2.1
     (by decide)⟩

/-- C9 counterexample: send_data performs no connection check. With
self.serial = None, every send_frame try-block trivially succeeds on its
first iteration (the else-branch sets ack = self.ack and returns), so the
attempt-level outcome of each send_frame call is success — the oracle
fun _ => none. An unconnected send_data of a nonempty payload therefore
proceeds and completes without FlashException, refuting the claim. -/
theorem send_data_unconnected_cex :
    (send_data (fun _ => none) (fun _ => 0) [1] 0).2 = .ok () :=
  send_data_all_ok (fun _ => none) (fun _ => 0) [1] 0 (by norm_num) (fun _ => rfl)
    (fun _ => by norm_num [UPLOAD_TIMEOUT])

/-- C9 (amended): xupload attempted while the serial transport is not
connected fails immediately with FlashException, with nothing sent; but
send_data has no connection check — with no serial handle each send_frame
call trivially succeeds (ack = self.ack), so an unconnected send_data of a
nonempty payload proceeds and (within the deadline) completes without any
exception, its trace nonempty. -/
theorem upload_not_connected (sendR : Nat → Option Exc) (address : Nat)
    (data : List Nat) :
    xupload sendR false address data
      = ([], .error (.flash "Serial port not connected"))
    ∧ ∀ (clock : Nat → ℚ) (data' : List Nat) (address' : Nat),
        data'.length ≠ 0 → (∀ k, ¬ clock k - clock 0 > (UPLOAD_TIMEOUT : ℚ)) →
        (send_data (fun _ => none) clock data' address').2 = .ok ()
        ∧ (send_data (fun _ => none) clock data' address').1 ≠ [] := by
  refine ⟨rfl, ?_⟩
  intro clock data' address' hL hclock
  have hok := send_data_all_ok (fun _ => none) clock data' address' hL (fun _ => rfl) hclock
  refine ⟨hok, ?_⟩
  obtain ⟨heq, -⟩ := send_data_ok_structure (fun _ => none) clock data' address' hok
  have htr : (send_data (fun _ => none) clock data' address').1
      = Sent.head (withCrc (head_frame_bytes data'.length address'))
        :: (send_data_loop (fun _ => none) clock data' (clock 0) 0 (nframesOf data'.length)).1
        ++ [Sent.tail (withCrc (tail_frame_bytes (nframesOf data'.length)))] := by
    rw [heq]
  rw [htr]
  simp

theorem upload_not_connected_witness :
    xupload (fun _ => none) false 0 [1]
      = ([], .error (.flash "Serial port not connected"))
    ∧ (send_data (fun _ => none) (fun _ => 0) [3] 0).2 = .ok ()
    ∧ (send_data (fun _ => none) (fun _ => 0) [3] 0).1 ≠ [] := by
  have h := upload_not_connected (fun _ => none) 0 [1]
  have hs := h.2 (fun _ => 0) [3] 0 (by norm_num)
    (fun _ => by norm_num [UPLOAD_TIMEOUT])
  exact ⟨h.1, hs.1, hs.2⟩

end PyPotatoNV
